import Mathlib

set_option linter.unusedVariables false

/-!
Shallow embedding of the EndoPredict backend (src/app.py).

The three process-wide mutable dictionaries (`otp_store`, `users_db`,
`history_db`) become fields of an explicit `AppState`; every handler is a
pure function threading that state.  Wall-clock time (`time.time()`), the
random OTP code (`random.randint`), the random mock prediction
(`np.random.uniform`) and the outcome of the SMTP delivery are passed in as
explicit parameters.  `raise HTTPException(status, detail)` becomes
`Except.error ⟨status, detail⟩`.  Python floats are modelled as rationals.
-/

namespace EndoPredict

/-- A Python dict keyed by strings. -/
def Store (α : Type) : Type := String → Option α

def Store.empty {α : Type} : Store α := fun _ => none

/-- `m[k] = v` (for `v = some _`) or `del m[k]` (for `v = none`). -/
def Store.update {α : Type} (m : Store α) (k : String) (v : Option α) : Store α :=
  fun q => if q = k then v else m q

/-- One entry of `otp_store`: `{"otp": ..., "expires_at": ..., "name": ...}`. -/
structure OtpRecord where
  otp : String
  expires_at : ℚ
  name : String
  deriving DecidableEq

/-- One entry of `users_db`: `{"name": ..., "email": ..., "password": ...}`. -/
structure UserRecord where
  name : String
  email : String
  password : String
  deriving DecidableEq

/-- One entry of a `history_db` list: `{"risk_percentage": ..., "date": ...}`. -/
structure HistoryItem where
  risk_percentage : ℚ
  date : String
  deriving DecidableEq

/-- The process-wide mutable state of app.py. -/
structure AppState where
  otp_store : Store OtpRecord
  users_db : Store UserRecord
  history_db : Store (List HistoryItem)

/-- `HTTPException(status_code=..., detail=...)`. -/
structure HTTPError where
  status_code : Nat
  detail : String
  deriving DecidableEq

/-- The JSON payload returned by verify-otp, login and google login. -/
structure AuthResponse where
  status : String
  token : String
  userEmail : String
  userName : String
  deriving DecidableEq

/-- The JSON payload returned by send-otp and save-history. -/
structure StatusResponse where
  status : String
  message : String
  deriving DecidableEq

/-- The JSON payload returned by get-history. -/
structure HistoryResponse where
  status : String
  history : List HistoryItem
  deriving DecidableEq

def OTP_EXPIRY_SECONDS : ℚ := 300

/-- `POST /auth/send-otp` (app.py:97-159).  `otpCode` stands for the value of
`str(random.randint(100000, 999999))`, `now` for `time.time()`,
`smtpConfigured` for `smtp_user and smtp_pass` being set, `notifierOk` for
the SMTP block not raising, and `errDetail` for `str(e)` of the raised
exception.  The store is written before the delivery attempt, so a delivery
failure leaves the fresh record in place. -/
def send_otp (st : AppState) (email name otpCode : String) (now : ℚ)
    (smtpConfigured notifierOk : Bool) (errDetail : String) :
    Except HTTPError StatusResponse × AppState :=
  let st2 : AppState := { st with otp_store := (st.otp_store.update email
      (some { otp := otpCode, expires_at := now + OTP_EXPIRY_SECONDS, name := name })) }
  if smtpConfigured && !notifierOk then
    (Except.error { status_code := 500, detail := errDetail }, st2)
  else
    (Except.ok { status := "success", message := "OTP sent successfully" }, st2)

/-- `POST /auth/verify-otp` (app.py:162-189). -/
def verify_otp (st : AppState) (email otp password : String) (now : ℚ) :
    Except HTTPError AuthResponse × AppState :=
  match st.otp_store email with
  | none =>
      (Except.error { status_code := 400, detail := "OTP not found or expired" }, st)
  | some record =>
      if now > record.expires_at then
        (Except.error { status_code := 400, detail := "OTP expired" },
         { st with otp_store := st.otp_store.update email none })
      else if record.otp ≠ otp then
        (Except.error { status_code := 400, detail := "Invalid OTP" }, st)
      else
        (Except.ok { status := "success", token := "mock-jwt-token-" ++ email,
                     userEmail := email, userName := record.name },
         { st with
            otp_store := st.otp_store.update email none,
            users_db := (st.users_db.update email
              (some { name := record.name, email := email, password := password })) })

/-- `POST /auth/login` (app.py:192-205).  Reads but never writes the state. -/
def login_user (st : AppState) (email password : String) :
    Except HTTPError AuthResponse :=
  match st.users_db email with
  | none =>
      Except.error { status_code := 400, detail := "Account not found. Please sign up." }
  | some user =>
      if user.password ≠ password then
        Except.error { status_code := 400, detail := "Incorrect email or password." }
      else
        Except.ok { status := "success", token := "mock-jwt-token-" ++ email,
                    userEmail := user.email, userName := user.name }

/-- `POST /auth/google` (app.py:208-215).  The `token` field of the request is
never inspected; no store is touched. -/
def google_login (st : AppState) (token email name : String) :
    AuthResponse × AppState :=
  (⟨"success", "mock-jwt-google-" ++ email, email, name⟩, st)

/-- `POST /history` (app.py:224-234). -/
def save_history (st : AppState) (email : String) (risk : ℚ) (date : String) :
    StatusResponse × AppState :=
  let cur := (st.history_db email).getD []
  ({ status := "success", message := "History saved" },
   { st with history_db := (st.history_db.update email
        (some (cur ++ [{ risk_percentage := risk, date := date }]))) })

/-- `GET /history/{email}` (app.py:236-240): `history_db.get(email, [])[::-1]`. -/
def get_history (st : AppState) (email : String) : HistoryResponse :=
  { status := "success", history := ((st.history_db email).getD []).reverse }

/-- Python `round(x, 2)` on rationals (ties differ from float banker's
rounding, which no claim exercises). -/
def round2 (x : ℚ) : ℚ := (round (x * 100) : ℚ) / 100

/-- `POST /predict` (app.py:53-64).  `model` stands for the loaded classifier
as the map from a feature row to `predict_proba(...)[0][1]`, `scaler` for the
loaded scaler's `transform` on one row, and `rand` for the value of
`np.random.uniform(5.0, 85.0)`.  The fallback fires when `model is None or
scaler is None`. -/
def predict (model : Option (List ℚ → ℚ)) (scaler : Option (List ℚ → List ℚ))
    (rand : ℚ) (features : List ℚ) : ℚ :=
  match model, scaler with
  | some m, some s => round2 (m (s features) * 100)
  | _, _ => rand

/-! ### Helper lemmas and concrete states -/

/-- Whether or not the SMTP delivery branch raises, the state produced by
`send_otp` holds the freshly issued record. -/
theorem send_otp_state (st : AppState) (email name otpCode : String) (now : ℚ)
    (smtpConfigured notifierOk : Bool) (errDetail : String) :
    (send_otp st email name otpCode now smtpConfigured notifierOk errDetail).2 =
      { st with otp_store := (st.otp_store.update email
        (some { otp := otpCode, expires_at := now + OTP_EXPIRY_SECONDS, name := name })) } := by
  unfold send_otp
  by_cases h : (smtpConfigured && !notifierOk) = true <;> simp [h]

/-- The empty state (all three dicts empty, as at process start). -/
def st0 : AppState :=
  { otp_store := Store.empty, users_db := Store.empty, history_db := Store.empty }

/-- A state with one pending OTP for `a@x.com`. -/
def stO : AppState :=
  { otp_store := (Store.empty.update "a@x.com"
      (some { otp := "123456", expires_at := 300, name := "Ann" })),
    users_db := Store.empty, history_db := Store.empty }

/-- A state with one registered account for `a@x.com`. -/
def stU : AppState :=
  { otp_store := Store.empty,
    users_db := (Store.empty.update "a@x.com"
      (some { name := "Ann", email := "a@x.com", password := "pw" })),
    history_db := Store.empty }

/-! ### Claims -/

/-- C1: for every email with a pending OTP whose code equals the submitted
code and whose expiry has not passed, verify-otp succeeds (returning a token
and the user's email and stored display name), deletes the pending record,
and an immediately following verify-otp for the same email with the same
code fails with NotFound (HTTP 400, "OTP not found or expired"). -/
theorem C1_verify_correct_code_consumes (st : AppState)
    (email code password password2 : String) (now : ℚ) (r : OtpRecord)
    (hrec : st.otp_store email = some r) (hcode : r.otp = code)
    (hexp : ¬ now > r.expires_at) :
    (verify_otp st email code password now).1 =
      Except.ok { status := "success", token := "mock-jwt-token-" ++ email,
                  userEmail := email, userName := r.name } ∧
    (verify_otp st email code password now).2.otp_store email = none ∧
    (verify_otp (verify_otp st email code password now).2 email code password2 now).1 =
      Except.error { status_code := 400, detail := "OTP not found or expired" } := by
  simp [verify_otp, hrec, hexp, hcode, Store.update]

theorem C1_witness :
    (verify_otp stO "a@x.com" "123456" "pw" 100).1 =
      Except.ok { status := "success", token := "mock-jwt-token-" ++ "a@x.com",
                  userEmail := "a@x.com", userName := "Ann" } ∧
    (verify_otp stO "a@x.com" "123456" "pw" 100).2.otp_store "a@x.com" = none ∧
    (verify_otp (verify_otp stO "a@x.com" "123456" "pw" 100).2
        "a@x.com" "123456" "pw2" 100).1 =
      Except.error { status_code := 400, detail := "OTP not found or expired" } :=
  C1_verify_correct_code_consumes stO "a@x.com" "123456" "pw" "pw2" 100
    { otp := "123456", expires_at := 300, name := "Ann" } rfl rfl (by norm_num)

/-- C2: for every email with a pending, unexpired OTP, verify-otp with a
wrong code fails with Mismatch (HTTP 400, "Invalid OTP") and returns the
state unchanged (so the record's code, expiry and display name are intact),
and a later verify-otp with the correct code before expiry still succeeds. -/
theorem C2_mismatch_preserves_record (st : AppState)
    (email wrong password password2 : String) (now now2 : ℚ) (r : OtpRecord)
    (hrec : st.otp_store email = some r) (hwrong : r.otp ≠ wrong)
    (hexp : ¬ now > r.expires_at) (hexp2 : ¬ now2 > r.expires_at) :
    verify_otp st email wrong password now =
      (Except.error { status_code := 400, detail := "Invalid OTP" }, st) ∧
    (verify_otp st email r.otp password2 now2).1 =
      Except.ok { status := "success", token := "mock-jwt-token-" ++ email,
                  userEmail := email, userName := r.name } := by
  simp [verify_otp, hrec, hexp, hexp2, hwrong]

theorem C2_witness :
    verify_otp stO "a@x.com" "000000" "pw" 100 =
      (Except.error { status_code := 400, detail := "Invalid OTP" }, stO) ∧
    (verify_otp stO "a@x.com" "123456" "pw2" 200).1 =
      Except.ok { status := "success", token := "mock-jwt-token-" ++ "a@x.com",
                  userEmail := "a@x.com", userName := "Ann" } :=
  C2_mismatch_preserves_record stO "a@x.com" "000000" "pw" "pw2" 100 200
    { otp := "123456", expires_at := 300, name := "Ann" }
    rfl (by decide) (by norm_num) (by norm_num)

/-- C3: for every email with a pending OTP, a verification attempt strictly
after `expires_at` fails with Expired (HTTP 400, "OTP expired") and deletes
the record, so any later verify-otp for that email, with any code, fails
with NotFound. -/
theorem C3_expired_deletes (st : AppState)
    (email code password code2 password2 : String) (now now2 : ℚ) (r : OtpRecord)
    (hrec : st.otp_store email = some r) (hexp : now > r.expires_at) :
    (verify_otp st email code password now).1 =
      Except.error { status_code := 400, detail := "OTP expired" } ∧
    (verify_otp st email code password now).2.otp_store email = none ∧
    (verify_otp (verify_otp st email code password now).2 email code2 password2 now2).1 =
      Except.error { status_code := 400, detail := "OTP not found or expired" } := by
  simp [verify_otp, hrec, hexp, Store.update]

theorem C3_witness :
    (verify_otp stO "a@x.com" "123456" "pw" 301).1 =
      Except.error { status_code := 400, detail := "OTP expired" } ∧
    (verify_otp stO "a@x.com" "123456" "pw" 301).2.otp_store "a@x.com" = none ∧
    (verify_otp (verify_otp stO "a@x.com" "123456" "pw" 301).2
        "a@x.com" "123456" "pw2" 301).1 =
      Except.error { status_code := 400, detail := "OTP not found or expired" } :=
  C3_expired_deletes stO "a@x.com" "123456" "pw" "123456" "pw2" 301 301
    { otp := "123456", expires_at := 300, name := "Ann" } rfl (by norm_num)

/-- C4 (counterexample): the old code does NOT always become invalid on
reissue.  `random.randint(100000, 999999)` can redraw the identical code:
reissuing `"123456"` over a pending `"123456"` leaves a state in which a
verify with the old code still succeeds, refuting the unconditional claim. -/
theorem C4_counterexample :
    (send_otp stO "a@x.com" "Ann" "123456" 50 false true "").2.otp_store "a@x.com" =
      some { otp := "123456", expires_at := 50 + OTP_EXPIRY_SECONDS, name := "Ann" } ∧
    (verify_otp (send_otp stO "a@x.com" "Ann" "123456" 50 false true "").2
        "a@x.com" "123456" "pw" 60).1 =
      Except.ok { status := "success", token := "mock-jwt-token-" ++ "a@x.com",
                  userEmail := "a@x.com", userName := "Ann" } := by
  constructor
  · rw [send_otp_state]; simp [Store.update]
  · rw [send_otp_state]
    simp [verify_otp, Store.update, OTP_EXPIRY_SECONDS]
    norm_num

/-- C4 (amended): issuing a new OTP while one is pending replaces the prior
record's code, expiry and display name with the new ones, and whenever the
freshly drawn code differs from the old one, a verify with the old code no
longer succeeds, at any later time (if the redraw yields the identical
code, the old code still verifies, as the counterexample shows). -/
theorem C4_reissue_overwrites (st : AppState)
    (email name newCode password : String) (now now2 : ℚ)
    (smtpConfigured notifierOk : Bool) (errDetail : String) (r : OtpRecord)
    (hrec : st.otp_store email = some r) (hne : newCode ≠ r.otp) :
    (send_otp st email name newCode now smtpConfigured notifierOk errDetail).2.otp_store email =
      some { otp := newCode, expires_at := now + OTP_EXPIRY_SECONDS, name := name } ∧
    ∀ resp, (verify_otp
        (send_otp st email name newCode now smtpConfigured notifierOk errDetail).2
        email r.otp password now2).1 ≠ Except.ok resp := by
  rw [send_otp_state]
  constructor
  · simp [Store.update]
  · intro resp
    by_cases hexp : now2 > now + OTP_EXPIRY_SECONDS
    · simp [verify_otp, Store.update, hexp]
    · simp [verify_otp, Store.update, hexp, hne]

theorem C4_witness :
    (send_otp stO "a@x.com" "Ann" "654321" 50 false true "").2.otp_store "a@x.com" =
      some { otp := "654321", expires_at := 50 + OTP_EXPIRY_SECONDS, name := "Ann" } ∧
    ∀ resp, (verify_otp (send_otp stO "a@x.com" "Ann" "654321" 50 false true "").2
        "a@x.com" "123456" "pw" 60).1 ≠ Except.ok resp :=
  C4_reissue_overwrites stO "a@x.com" "Ann" "654321" "pw" 50 60 false true ""
    { otp := "123456", expires_at := 300, name := "Ann" } rfl (by decide)

/-- C5: when SMTP credentials are configured and the delivery raises,
send-otp fails with HTTP 500 carrying the exception text, but the OTP
issued by that request stays in the store with its 300-second expiry, and
the code can still be verified before that expiry. -/
theorem C5_notifier_failure_keeps_otp (st : AppState)
    (email name code password errDetail : String) (now now2 : ℚ)
    (hexp : ¬ now2 > now + OTP_EXPIRY_SECONDS) :
    (send_otp st email name code now true false errDetail).1 =
      Except.error { status_code := 500, detail := errDetail } ∧
    (send_otp st email name code now true false errDetail).2.otp_store email =
      some { otp := code, expires_at := now + OTP_EXPIRY_SECONDS, name := name } ∧
    (verify_otp (send_otp st email name code now true false errDetail).2
        email code password now2).1 =
      Except.ok { status := "success", token := "mock-jwt-token-" ++ email,
                  userEmail := email, userName := name } := by
  refine ⟨by simp [send_otp], ?_, ?_⟩
  · rw [send_otp_state]; simp [Store.update]
  · rw [send_otp_state]; simp [verify_otp, Store.update, hexp]

theorem C5_witness :
    (send_otp st0 "a@x.com" "Ann" "123456" 0 true false "boom").1 =
      Except.error { status_code := 500, detail := "boom" } ∧
    (send_otp st0 "a@x.com" "Ann" "123456" 0 true false "boom").2.otp_store "a@x.com" =
      some { otp := "123456", expires_at := 0 + OTP_EXPIRY_SECONDS, name := "Ann" } ∧
    (verify_otp (send_otp st0 "a@x.com" "Ann" "123456" 0 true false "boom").2
        "a@x.com" "123456" "pw" 200).1 =
      Except.ok { status := "success", token := "mock-jwt-token-" ++ "a@x.com",
                  userEmail := "a@x.com", userName := "Ann" } :=
  C5_notifier_failure_keeps_otp st0 "a@x.com" "Ann" "123456" "pw" "boom" 0 200
    (by norm_num [OTP_EXPIRY_SECONDS])

/-- C6: login fails with AccountNotFound (HTTP 400,
"Account not found. Please sign up.") when no account exists for the email,
fails with IncorrectCredential (HTTP 400, "Incorrect email or password.")
when the stored password differs from the submitted one, and otherwise
succeeds with a session token and the account's email and name. -/
theorem C6_login_cases (st : AppState) (email password : String) :
    (st.users_db email = none →
      login_user st email password =
        Except.error { status_code := 400, detail := "Account not found. Please sign up." }) ∧
    (∀ u, st.users_db email = some u → u.password ≠ password →
      login_user st email password =
        Except.error { status_code := 400, detail := "Incorrect email or password." }) ∧
    (∀ u, st.users_db email = some u → u.password = password →
      login_user st email password =
        Except.ok { status := "success", token := "mock-jwt-token-" ++ email,
                    userEmail := u.email, userName := u.name }) :=
  ⟨fun h => by simp [login_user, h],
   fun u h hne => by simp [login_user, h, hne],
   fun u h heq => by simp [login_user, h, heq]⟩

theorem C6_witness :
    login_user stU "a@x.com" "pw" =
      Except.ok { status := "success", token := "mock-jwt-token-" ++ "a@x.com",
                  userEmail := "a@x.com", userName := "Ann" } ∧
    login_user stU "a@x.com" "bad" =
      Except.error { status_code := 400, detail := "Incorrect email or password." } ∧
    login_user stU "b@x.com" "pw" =
      Except.error { status_code := 400, detail := "Account not found. Please sign up." } :=
  ⟨(C6_login_cases stU "a@x.com" "pw").2.2
      { name := "Ann", email := "a@x.com", password := "pw" } rfl rfl,
   (C6_login_cases stU "a@x.com" "bad").2.1
      { name := "Ann", email := "a@x.com", password := "pw" } rfl (by decide),
   (C6_login_cases stU "b@x.com" "pw").1 rfl⟩

/-- C7: for an email with no records, listing history returns an empty
sequence (with success status, not an error); after appending A, B, C in
that order, listing returns [C, B, A]. -/
theorem C7_history_reverse (st : AppState) (email : String) (a b c : HistoryItem)
    (hnone : st.history_db email = none) :
    get_history st email = { status := "success", history := [] } ∧
    get_history (save_history (save_history (save_history st email
        a.risk_percentage a.date).2 email b.risk_percentage b.date).2 email
        c.risk_percentage c.date).2 email =
      { status := "success", history := [c, b, a] } := by
  constructor
  · simp [get_history, hnone]
  · simp [get_history, save_history, Store.update, hnone]

theorem C7_witness :
    get_history st0 "a@x.com" = { status := "success", history := [] } ∧
    get_history (save_history (save_history (save_history st0 "a@x.com"
        (10 : ℚ) "d1").2 "a@x.com" (20 : ℚ) "d2").2 "a@x.com"
        (30 : ℚ) "d3").2 "a@x.com" =
      { status := "success",
        history := [{ risk_percentage := 30, date := "d3" },
                    { risk_percentage := 20, date := "d2" },
                    { risk_percentage := 10, date := "d1" }] } :=
  C7_history_reverse st0 "a@x.com"
    { risk_percentage := 10, date := "d1" }
    { risk_percentage := 20, date := "d2" }
    { risk_percentage := 30, date := "d3" } rfl

/-- C8 (counterexample): with a classifier configured but no scaler loaded,
predict returns the random fallback value (here 10), not the classifier's
rounded percentage (here 50) — refuting the claim that a configured
Classifier alone suffices for the model path. -/
theorem C8_counterexample :
    predict (some fun _ => 1 / 2) none 10 [0] = 10 ∧
    round2 ((1 / 2 : ℚ) * 100) = 50 ∧ (10 : ℚ) ≠ 50 := by
  refine ⟨rfl, ?_, by norm_num⟩
  rw [round2]
  norm_num [round_eq]

/-- C8 (amended): if both a Classifier and a Scaler are configured, predict
returns the positive-class probability on the scaled features times 100,
rounded to 2 decimals; if either is missing, it returns the random fallback
value, which lies in [5, 85) whenever the draw does. -/
theorem C8_predict_amended (model : Option (List ℚ → ℚ))
    (scaler : Option (List ℚ → List ℚ)) (rand : ℚ) (features : List ℚ)
    (hlo : 5 ≤ rand) (hhi : rand < 85) :
    (∀ m s, model = some m → scaler = some s →
      predict model scaler rand features = round2 (m (s features) * 100)) ∧
    ((model = none ∨ scaler = none) →
      predict model scaler rand features = rand ∧
      5 ≤ predict model scaler rand features ∧
      predict model scaler rand features < 85) := by
  constructor
  · rintro m s rfl rfl
    rfl
  · rintro (rfl | rfl)
    · cases scaler <;> exact ⟨rfl, hlo, hhi⟩
    · cases model <;> exact ⟨rfl, hlo, hhi⟩

theorem C8_witness :
    (∀ m s, (some fun l : List ℚ => l.headI) = some m →
      (none : Option (List ℚ → List ℚ)) = some s →
      predict (some fun l : List ℚ => l.headI) none 10 [0] = round2 (m (s [0]) * 100)) ∧
    (((some fun l : List ℚ => l.headI) = none ∨
        (none : Option (List ℚ → List ℚ)) = none) →
      predict (some fun l : List ℚ => l.headI) none 10 [0] = 10 ∧
      5 ≤ predict (some fun l : List ℚ => l.headI) none 10 [0] ∧
      predict (some fun l : List ℚ => l.headI) none 10 [0] < 85) :=
  C8_predict_amended (some fun l => l.headI) none 10 [0] (by norm_num) (by norm_num)

/-- C9: google login succeeds unconditionally with status "success", and its
response depends only on the submitted email and name: two requests with the
same email and name but different token values produce identical responses
(the assertion token is never inspected). -/
theorem C9_google_token_independent (st : AppState)
    (token1 token2 email name : String) (hne : token1 ≠ token2) :
    google_login st token1 email name = google_login st token2 email name ∧
    (google_login st token1 email name).1 =
      { status := "success", token := "mock-jwt-google-" ++ email,
        userEmail := email, userName := name } :=
  ⟨rfl, rfl⟩

theorem C9_witness :
    google_login st0 "tokA" "a@x.com" "Ann" = google_login st0 "tokB" "a@x.com" "Ann" ∧
    (google_login st0 "tokA" "a@x.com" "Ann").1 =
      { status := "success", token := "mock-jwt-google-" ++ "a@x.com",
        userEmail := "a@x.com", userName := "Ann" } :=
  C9_google_token_independent st0 "tokA" "tokB" "a@x.com" "Ann" (by decide)

/-- C10: google login returns the state unchanged (so the user directory,
OTP store and history ledger are untouched and no account is created), and
for an email with no account a subsequent password login still fails with
AccountNotFound. -/
theorem C10_google_login_frame (st : AppState)
    (token email name password : String)
    (hnone : st.users_db email = none) :
    (google_login st token email name).2 = st ∧
    login_user (google_login st token email name).2 email password =
      Except.error { status_code := 400, detail := "Account not found. Please sign up." } :=
  ⟨rfl, by simp [google_login, login_user, hnone]⟩

theorem C10_witness :
    (google_login st0 "tok" "a@x.com" "Ann").2 = st0 ∧
    login_user (google_login st0 "tok" "a@x.com" "Ann").2 "a@x.com" "pw" =
      Except.error { status_code := 400, detail := "Account not found. Please sign up." } :=
  C10_google_login_frame st0 "tok" "a@x.com" "Ann" "pw" rfl

end EndoPredict
